import Mathlib

/-!
Verification of the tg-ws-relay WebSocket relay server.

The development shallowly embeds the per-connection relay engine of
src/server.ts together with its collaborators: the backpressure
controller (src/util/backpressure.ts), the upstream connector
(src/upstream/connect.ts), the admission gate (the wss connection
handler in src/server.ts) and the compiled host-allowlist matcher
(parseHostPatterns in src/config.ts).

Modelling choices, stated once:
* Binary frame payloads are byte lists (List Nat); a frame's byte count
  is its list length, mirroring Buffer.length.
* Node timers are modelled as Option Nat slots holding the id of the
  latest setTimeout/setInterval handle, with a per-connection fresh-id
  counter.  clearTimeout sets the slot to none; re-arming stores a fresh
  id, so a reset (clear + new handle) is observable as an id change.
* A socket readyState follows the ws package: close() on an OPEN socket
  moves it to CLOSING; terminate() destroys the transport (CLOSING until
  the close event, which sets CLOSED).
* ws.bufferedAmount is an environment observation, so message and drain
  events carry the buffered-byte count observed at delivery time.
* Event delivery follows the ws event contract: a socket emits nothing
  after its close event; upstream data events require the handshake to
  have completed; a timer only fires while armed.  Impossible deliveries
  are no-ops of the step function.
* Log calls carrying no data relevant to the claims (debug/trace lines)
  are not modelled; the warn lines that the spec talks about (non-binary
  drop, message drop) and the terminal stats line are explicit effects.
-/

/-- Socket readyState values of the ws package. -/
inductive ReadyState where
  | CONNECTING
  | OPEN
  | CLOSING
  | CLOSED
deriving DecidableEq

/-- BackpressureState from src/util/backpressure.ts: per-direction flag
and (never-updated) byte counter. -/
structure BackpressureState where
  isPaused : Bool
  totalBytes : Nat
deriving DecidableEq

/-- checkBackpressure from src/util/backpressure.ts.  The source reads
ws.bufferedAmount, so the observed buffered byte count is a parameter;
maxBufferedBytes is config.maxBufferedBytes.  Returns the updated state
and whether a pause signal was issued to the opposite socket. -/
def checkBackpressure (maxBufferedBytes buffered : Nat)
    (state : BackpressureState) : BackpressureState × Bool :=
  if buffered > maxBufferedBytes ∧ state.isPaused = false then
    ({ state with isPaused := true }, true)
  else
    (state, false)

/-- handleDrain from src/util/backpressure.ts.  The source condition is
buffered < config.maxBufferedBytes * 0.5; for natural-number byte counts
that float comparison is exactly 2 * buffered < maxBufferedBytes.
Returns the updated state and whether a resume signal was issued. -/
def handleDrain (maxBufferedBytes buffered : Nat)
    (state : BackpressureState) : BackpressureState × Bool :=
  if state.isPaused = true ∧ 2 * buffered < maxBufferedBytes then
    ({ state with isPaused := false }, true)
  else
    (state, false)

/-- The safe close code computed in cleanup (src/server.ts line 207):
1005 (no status received) and 1006 (abnormal closure) are replaced by
1000 (normal closure); every other code passes through. -/
def safeCloseCode (code : Nat) : Nat :=
  if code = 1005 ∨ code = 1006 then 1000 else code

/-- Action cleanup takes on one socket: graceful close with a code, or
forcible terminate. -/
inductive SocketAction where
  | close (code : Nat)
  | terminate
deriving DecidableEq

/-- Socket disposal in cleanup (src/server.ts lines 209-219): close with
the safe code when the socket is OPEN, terminate otherwise. -/
def closeSocketAction (ready : ReadyState) (code : Nat) : SocketAction :=
  if ready = ReadyState.OPEN then SocketAction.close (safeCloseCode code)
  else SocketAction.terminate

/-- readyState after cleanup acts on a socket: close() moves an OPEN
socket to CLOSING; terminate() destroys the transport (CLOSING until the
close event), and is a no-op on an already CLOSED socket. -/
def applySocketAction (ready : ReadyState) (a : SocketAction) : ReadyState :=
  match a with
  | SocketAction.close _ => ReadyState.CLOSING
  | SocketAction.terminate =>
      if ready = ReadyState.CLOSED then ReadyState.CLOSED else ReadyState.CLOSING

/-- Fuel-indexed wildcard matcher.  parseHostPatterns (src/config.ts)
compiles a pattern by escaping every regex metacharacter except *,
replacing * by .*, anchoring with ^...$ and compiling with the i flag;
on that fragment the compiled regex denotes exactly this relation: a
literal character matches one input character up to ASCII case, * an
arbitrary run of input characters, and the whole input must be consumed.
Fuel p.length + s.length + 1 always suffices (each call drops the
pattern or the input by one character). -/
def wildcardMatchAux : Nat → List Char → List Char → Bool
  | 0, _, _ => false
  | _ + 1, [], s => s.isEmpty
  | f + 1, c :: p, s =>
    if c = '*' then
      wildcardMatchAux f p s ||
        (match s with
         | [] => false
         | _ :: rest => wildcardMatchAux f (c :: p) rest)
    else
      match s with
      | [] => false
      | d :: s2 => (c.toLower == d.toLower) && wildcardMatchAux f p s2

/-- pattern.test(hostname) for a compiled host pattern. -/
def wildcardMatch (p s : List Char) : Bool :=
  wildcardMatchAux (p.length + s.length + 1) p s

/-- Result of parsing the decoded upstream URL parameter: new URL either
throws or yields a protocol and a hostname (the only parts the gate
inspects). -/
inductive UpstreamParse where
  | fail
  | ok (protocol : String) (hostname : String)
deriving DecidableEq

/-- The parts of the inbound upgrade request the admission gate reads. -/
structure Request where
  upstreamParam : Option UpstreamParse
  origin : Option String
  token : Option String
deriving DecidableEq

/-- The configuration fields the admission gate reads; host patterns are
kept in compiled form (character lists fed to wildcardMatch). -/
structure GateConfig where
  allowedOrigins : List String
  token : Option String
  allowedUpstreamHostPatterns : List (List Char)
deriving DecidableEq

/-- validateOrigin from src/server.ts lines 25-33. -/
def validateOrigin (cfg : GateConfig) (origin : Option String) : Bool :=
  if cfg.allowedOrigins.isEmpty then true
  else
    match origin with
    | none => false
    | some o => cfg.allowedOrigins.contains o

/-- validateToken from src/server.ts lines 35-40. -/
def validateToken (cfg : GateConfig) (provided : Option String) : Bool :=
  match cfg.token with
  | none => true
  | some t => provided == some t

/-- Outcome of the admission sequence: an admitted target hostname, or a
rejection close code sent to the downstream socket. -/
inductive GateResult where
  | accept (hostname : String)
  | reject (code : Nat)
deriving DecidableEq

/-- The admission sequence of the wss connection handler
(src/server.ts lines 86-151), check for check in source order:
missing upstream parameter (4002), URL parse failure (4002, via the
catch), protocol not wss:/ws: (4003), empty pattern set (4004), no
pattern match (4004), origin (4000), token (4001). -/
def admitConnection (cfg : GateConfig) (req : Request) : GateResult :=
  match req.upstreamParam with
  | none => GateResult.reject 4002
  | some UpstreamParse.fail => GateResult.reject 4002
  | some (UpstreamParse.ok protocol hostname) =>
    if protocol ≠ "wss:" ∧ protocol ≠ "ws:" then GateResult.reject 4003
    else if cfg.allowedUpstreamHostPatterns.isEmpty then GateResult.reject 4004
    else if ¬ cfg.allowedUpstreamHostPatterns.any
        (fun p => wildcardMatch p hostname.toList) then GateResult.reject 4004
    else if ¬ validateOrigin cfg req.origin then GateResult.reject 4000
    else if ¬ validateToken cfg req.token then GateResult.reject 4001
    else GateResult.accept hostname

/-- connectUpstream (src/server.ts line 151) runs only after every
admission check has passed; a rejection returns first, so only an accept
reaches the upstream connector. -/
def upstreamAttempted : GateResult → Bool
  | GateResult.accept _ => true
  | GateResult.reject _ => false

/-- Combined host check of src/server.ts lines 110-124: the pattern set
is non-empty and some pattern matches the hostname. -/
def hostAllowed (cfg : GateConfig) (hostname : String) : Bool :=
  !cfg.allowedUpstreamHostPatterns.isEmpty &&
    cfg.allowedUpstreamHostPatterns.any (fun p => wildcardMatch p hostname.toList)

/-- Per-connection mutable state of the relay engine (src/server.ts
lines 153-169) together with the connector-owned upstream idle timer
(src/upstream/connect.ts line 13), the socket readyStates and the
event-contract bookkeeping flags (usOpened: the upstream open event has
fired; dsCloseEmitted / usCloseEmitted: that socket's close event has
fired, after which it emits nothing). -/
structure ConnState where
  closed : Bool
  downstreamIdleTimer : Option Nat
  pingTimer : Option Nat
  upstreamIdleTimer : Option Nat
  nextTimerId : Nat
  downstreamAlive : Bool
  pendingMessages : List (List Nat)
  bytesDownstreamToUpstream : Nat
  bytesUpstreamToDownstream : Nat
  dsState : ReadyState
  usState : ReadyState
  downstreamBackpressure : BackpressureState
  upstreamBackpressure : BackpressureState
  usOpened : Bool
  dsCloseEmitted : Bool
  usCloseEmitted : Bool
deriving DecidableEq

/-- Observable side effects of a handler invocation, in emission order:
frame sends, the terminal "Connection closed" stats log (carrying the
close code and both byte counters), socket disposal, the warn logs for
dropped frames, pause/resume flow-control signals and the keepalive
ping. -/
inductive Effect where
  | sendUpstream (data : List Nat)
  | sendDownstream (data : List Nat)
  | connectionClosedLog (code bytesDown2Up bytesUp2Down : Nat)
  | downstreamSocket (a : SocketAction)
  | upstreamSocket (a : SocketAction)
  | nonBinaryDownstreamLog
  | nonBinaryUpstreamLog
  | dropDownstreamLog
  | dropUpstreamLog
  | pauseDownstream
  | resumeDownstream
  | pauseUpstream
  | resumeUpstream
  | pingDownstream
deriving DecidableEq

/-- Events delivered to the connection's handlers.  Message and drain
events carry the byte payload and/or the bufferedAmount observed on the
receiving socket at delivery time; close events carry the peer code;
timer events are the firing of the corresponding armed timer. -/
inductive Event where
  | dsMessage (data : List Nat) (isBinary : Bool) (upstreamBuffered : Nat)
  | dsPong
  | dsPing
  | dsClose (code : Nat)
  | dsError
  | usOpen
  | usMessage (data : List Nat) (isBinary : Bool) (downstreamBuffered : Nat)
  | usPing
  | usPong
  | usClose (code : Nat)
  | usError
  | dsIdleTimeout
  | pingTick
  | usIdleTimeout
  | dsDrain (buffered : Nat)
  | usDrain (buffered : Nat)
deriving DecidableEq

/-- resetDownstreamIdleTimer (src/server.ts lines 171-179): clear any
armed downstream idle timer and arm a fresh one. -/
def resetDownstreamIdleTimer (s : ConnState) : ConnState :=
  { s with downstreamIdleTimer := some s.nextTimerId,
           nextTimerId := s.nextTimerId + 1 }

/-- resetIdleTimer of the upstream connector (src/upstream/connect.ts
lines 15-23): clear any armed upstream idle timer and arm a fresh one. -/
def resetIdleTimer (s : ConnState) : ConnState :=
  { s with upstreamIdleTimer := some s.nextTimerId,
           nextTimerId := s.nextTimerId + 1 }

/-- cleanup (src/server.ts lines 181-220): a no-op when the closed guard
is already set; otherwise set closed, emit the stats log, clear the
downstream idle timer and the ping timer, and dispose of both sockets
(close with the safe code when OPEN, terminate otherwise).  The
human-readable reason string accompanying the code is an uninterpreted
log/close-frame payload and is not modelled. -/
def cleanup (code : Nat) (s : ConnState) : ConnState × List Effect :=
  if s.closed then (s, [])
  else
    ({ s with closed := true,
              downstreamIdleTimer := none,
              pingTimer := none,
              dsState := applySocketAction s.dsState (closeSocketAction s.dsState code),
              usState := applySocketAction s.usState (closeSocketAction s.usState code) },
     [Effect.connectionClosedLog code s.bytesDownstreamToUpstream s.bytesUpstreamToDownstream,
      Effect.downstreamSocket (closeSocketAction s.dsState code),
      Effect.upstreamSocket (closeSocketAction s.usState code)])

/-- One handler invocation: the connection's reaction to a delivered
event, as wired in src/server.ts lines 236-346 and
src/upstream/connect.ts lines 25-71.  maxBufferedBytes is
config.maxBufferedBytes.  Where both the connector and the server
register a handler for the same upstream event, the connector's runs
first (connectUpstream returns before the server attaches its
handlers). -/
def step (maxBufferedBytes : Nat) (s : ConnState) : Event → ConnState × List Effect
  | Event.dsMessage data isBinary upstreamBuffered =>
    if s.dsCloseEmitted then (s, [])
    else if isBinary = false then (s, [Effect.nonBinaryDownstreamLog])
    else if s.usState = ReadyState.OPEN then
      ({ resetDownstreamIdleTimer
           { s with bytesDownstreamToUpstream := s.bytesDownstreamToUpstream + data.length } with
         upstreamBackpressure :=
           (checkBackpressure maxBufferedBytes upstreamBuffered s.upstreamBackpressure).1 },
       Effect.sendUpstream data ::
         (if (checkBackpressure maxBufferedBytes upstreamBuffered s.upstreamBackpressure).2 then
            [Effect.pauseDownstream] else []))
    else if s.usState = ReadyState.CONNECTING then
      ({ resetDownstreamIdleTimer
           { s with bytesDownstreamToUpstream := s.bytesDownstreamToUpstream + data.length } with
         pendingMessages := s.pendingMessages ++ [data] }, [])
    else
      (resetDownstreamIdleTimer
         { s with bytesDownstreamToUpstream := s.bytesDownstreamToUpstream + data.length },
       [Effect.dropDownstreamLog])
  | Event.dsPong =>
    if s.dsCloseEmitted then (s, [])
    else (resetDownstreamIdleTimer { s with downstreamAlive := true }, [])
  | Event.dsPing =>
    if s.dsCloseEmitted then (s, [])
    else (resetDownstreamIdleTimer s, [])
  | Event.dsClose code =>
    if s.dsCloseEmitted then (s, [])
    else cleanup code { s with dsCloseEmitted := true, dsState := ReadyState.CLOSED }
  | Event.dsError =>
    if s.dsCloseEmitted then (s, [])
    else cleanup 1011 s
  | Event.usOpen =>
    if s.usState = ReadyState.CONNECTING then
      ({ resetIdleTimer { s with usState := ReadyState.OPEN, usOpened := true } with
         pendingMessages := [] },
       s.pendingMessages.map Effect.sendUpstream)
    else (s, [])
  | Event.usMessage data isBinary downstreamBuffered =>
    if s.usOpened = false ∨ s.usCloseEmitted then (s, [])
    else if isBinary = false then (resetIdleTimer s, [Effect.nonBinaryUpstreamLog])
    else if s.dsState = ReadyState.OPEN then
      ({ resetIdleTimer
           { s with bytesUpstreamToDownstream := s.bytesUpstreamToDownstream + data.length } with
         downstreamBackpressure :=
           (checkBackpressure maxBufferedBytes downstreamBuffered s.downstreamBackpressure).1 },
       Effect.sendDownstream data ::
         (if (checkBackpressure maxBufferedBytes downstreamBuffered s.downstreamBackpressure).2 then
            [Effect.pauseUpstream] else []))
    else
      (resetIdleTimer
         { s with bytesUpstreamToDownstream := s.bytesUpstreamToDownstream + data.length },
       [Effect.dropUpstreamLog])
  | Event.usPing =>
    if s.usOpened = false ∨ s.usCloseEmitted then (s, [])
    else (resetIdleTimer s, [])
  | Event.usPong =>
    if s.usOpened = false ∨ s.usCloseEmitted then (s, [])
    else (resetIdleTimer s, [])
  | Event.usClose code =>
    if s.usCloseEmitted then (s, [])
    else cleanup code { s with usCloseEmitted := true,
                               usState := ReadyState.CLOSED,
                               upstreamIdleTimer := none }
  | Event.usError =>
    if s.usCloseEmitted then (s, [])
    else cleanup 1011 { s with upstreamIdleTimer := none }
  | Event.dsIdleTimeout =>
    match s.downstreamIdleTimer with
    | none => (s, [])
    | some _ => cleanup 1000 { s with downstreamIdleTimer := none }
  | Event.pingTick =>
    match s.pingTimer with
    | none => (s, [])
    | some _ =>
      if s.downstreamAlive = false then cleanup 1000 s
      else ({ s with downstreamAlive := false }, [Effect.pingDownstream])
  | Event.usIdleTimeout =>
    match s.upstreamIdleTimer with
    | none => (s, [])
    | some _ =>
      ({ s with upstreamIdleTimer := none,
                usState := applySocketAction s.usState SocketAction.terminate },
       [Effect.upstreamSocket SocketAction.terminate])
  | Event.dsDrain buffered =>
    if s.dsCloseEmitted then (s, [])
    else
      ({ s with downstreamBackpressure :=
           (handleDrain maxBufferedBytes buffered s.downstreamBackpressure).1 },
       if (handleDrain maxBufferedBytes buffered s.downstreamBackpressure).2 then
         [Effect.resumeUpstream] else [])
  | Event.usDrain buffered =>
    if s.usCloseEmitted then (s, [])
    else
      ({ s with upstreamBackpressure :=
           (handleDrain maxBufferedBytes buffered s.upstreamBackpressure).1 },
       if (handleDrain maxBufferedBytes buffered s.upstreamBackpressure).2 then
         [Effect.resumeDownstream] else [])

/-- State right after connection setup (src/server.ts lines 151-234):
downstream accepted (OPEN), upstream connecting, the downstream idle
timer armed by the initial resetDownstreamIdleTimer call and the
keepalive interval armed; the connector arms its idle timer only on
upstream traffic. -/
def initConnState : ConnState :=
  { closed := false
    downstreamIdleTimer := some 0
    pingTimer := some 1
    upstreamIdleTimer := none
    nextTimerId := 2
    downstreamAlive := true
    pendingMessages := []
    bytesDownstreamToUpstream := 0
    bytesUpstreamToDownstream := 0
    dsState := ReadyState.OPEN
    usState := ReadyState.CONNECTING
    downstreamBackpressure := { isPaused := false, totalBytes := 0 }
    upstreamBackpressure := { isPaused := false, totalBytes := 0 }
    usOpened := false
    dsCloseEmitted := false
    usCloseEmitted := false }

/-- Run a sequence of delivered events from the initial state,
accumulating emitted effects in order. -/
def runFrom (maxBufferedBytes : Nat) (start : ConnState × List Effect)
    (es : List Event) : ConnState × List Effect :=
  es.foldl
    (fun acc e =>
      ((step maxBufferedBytes acc.1 e).1, acc.2 ++ (step maxBufferedBytes acc.1 e).2))
    start

/-- Run a sequence of delivered events on a fresh connection. -/
def run (maxBufferedBytes : Nat) (es : List Event) : ConnState × List Effect :=
  runFrom maxBufferedBytes (initConnState, []) es

/-- Recognizer for the terminal stats log effect. -/
def isConnectionClosedLog : Effect → Bool
  | Effect.connectionClosedLog _ _ _ => true
  | _ => false

/-- Recognizer for frame-forwarding effects. -/
def isForwardEffect : Effect → Bool
  | Effect.sendUpstream _ => true
  | Effect.sendDownstream _ => true
  | _ => false

theorem wildcardMatchAux_no_star (f : Nat) (p s : List Char) (hp : '*' ∉ p)
    (hf : p.length + s.length < f) :
    (wildcardMatchAux f p s = true ↔ p.map Char.toLower = s.map Char.toLower) := by
  induction f generalizing p s with
  | zero => omega
  | succ f ih =>
    cases p with
    | nil =>
      cases s with
      | nil => simp [wildcardMatchAux]
      | cons d s2 => simp [wildcardMatchAux]
    | cons c p2 =>
      have hc : c ≠ '*' := fun h => hp (by simp [h])
      have hp2 : '*' ∉ p2 := fun h => hp (by simp [h])
      cases s with
      | nil => simp [wildcardMatchAux, hc]
      | cons d s2 =>
        have hlen : p2.length + s2.length < f := by
          simp only [List.length_cons] at hf; omega
        simp only [wildcardMatchAux, if_neg hc, Bool.and_eq_true, beq_iff_eq,
          List.map_cons, List.cons.injEq]
        rw [ih p2 s2 hp2 hlen]

/-- C9: host-pattern matching is anchored and case-insensitive, with *
matching any run of characters and every other pattern character
literal.  The compiled pattern *.telegram.org matches
venus.web.telegram.org (also in different letter case) and does not
match telegram.org.evil.com; a star-free pattern matches exactly the
hostnames equal to it up to ASCII case — whole-string equality, so
matching is anchored and every non-star character is literal. -/
theorem c9_wildcard_matching :
    wildcardMatch "*.telegram.org".toList "venus.web.telegram.org".toList = true ∧
    wildcardMatch "*.telegram.org".toList "telegram.org.evil.com".toList = false ∧
    wildcardMatch "*.telegram.org".toList "VENUS.WEB.Telegram.ORG".toList = true ∧
    (∀ p s, '*' ∉ p →
      (wildcardMatch p s = true ↔ p.map Char.toLower = s.map Char.toLower)) := by
  refine ⟨by decide, by decide, by decide, ?_⟩
  intro p s hp
  exact wildcardMatchAux_no_star _ p s hp (by omega)

/-- Witness for c9_wildcard_matching: concrete instances of the
star-free characterization in both directions. -/
theorem c9_wildcard_matching_witness :
    wildcardMatch "Web.Telegram.Org".toList "web.telegram.ORG".toList = true ∧
    wildcardMatch "telegram.org".toList "xtelegram.org".toList = false := by
  constructor
  · exact (c9_wildcard_matching.2.2.2 _ _ (by decide)).mpr (by decide)
  · by_contra h
    have := (c9_wildcard_matching.2.2.2
      "telegram.org".toList "xtelegram.org".toList (by decide)).mp
      (by revert h; decide)
    revert this; decide

/-- C6: with an empty set of configured upstream-host patterns, every
connection request carrying a well-formed ws/wss target is rejected with
close code 4004 whatever its hostname, and the upstream connector is
never invoked. -/
theorem c6_empty_allowlist_fail_closed :
    ∀ (cfg : GateConfig) (req : Request) (protocol hostname : String),
      cfg.allowedUpstreamHostPatterns = [] →
      req.upstreamParam = some (UpstreamParse.ok protocol hostname) →
      (protocol = "wss:" ∨ protocol = "ws:") →
      admitConnection cfg req = GateResult.reject 4004 ∧
      upstreamAttempted (admitConnection cfg req) = false := by
  intro cfg req protocol hostname hpat hup hproto
  have : admitConnection cfg req = GateResult.reject 4004 := by
    rw [admitConnection, hup]
    rcases hproto with h | h <;> subst h <;> simp [hpat]
  exact ⟨this, by rw [this]; rfl⟩

/-- Witness for c6_empty_allowlist_fail_closed at a concrete request. -/
theorem c6_empty_allowlist_fail_closed_witness :
    admitConnection ⟨[], none, []⟩
        ⟨some (UpstreamParse.ok "wss:" "venus.web.telegram.org"), none, none⟩
      = GateResult.reject 4004 ∧
    upstreamAttempted (admitConnection ⟨[], none, []⟩
        ⟨some (UpstreamParse.ok "wss:" "venus.web.telegram.org"), none, none⟩)
      = false :=
  c6_empty_allowlist_fail_closed ⟨[], none, []⟩
    ⟨some (UpstreamParse.ok "wss:" "venus.web.telegram.org"), none, none⟩
    "wss:" "venus.web.telegram.org" rfl rfl (Or.inl rfl)

/-- C7: backpressure hysteresis.  A forwarded frame pauses the sender
exactly when the receiver's buffered bytes strictly exceed the threshold
and the direction is not already paused; a drain resumes exactly when
the direction is paused and buffered bytes have fallen strictly below
half the threshold; in the half-open band from half the threshold up to
and beyond it no resume occurs; an already-paused direction never
receives a second pause and an unpaused one never a resume. -/
theorem c7_backpressure_hysteresis :
    (∀ T buf st, buf > T → st.isPaused = false →
      checkBackpressure T buf st = ({ st with isPaused := true }, true)) ∧
    (∀ T buf st, st.isPaused = true → checkBackpressure T buf st = (st, false)) ∧
    (∀ T buf st, buf ≤ T → checkBackpressure T buf st = (st, false)) ∧
    (∀ T buf st, st.isPaused = true → 2 * buf < T →
      handleDrain T buf st = ({ st with isPaused := false }, true)) ∧
    (∀ T buf st, st.isPaused = false → handleDrain T buf st = (st, false)) ∧
    (∀ T buf st, T ≤ 2 * buf → handleDrain T buf st = (st, false)) := by
  refine ⟨?_, ?_, ?_, ?_, ?_, ?_⟩
  · intro T buf st h1 h2; simp [checkBackpressure, h1, h2]
  · intro T buf st h1; simp [checkBackpressure, h1]
  · intro T buf st h1; simp [checkBackpressure, Nat.not_lt.mpr h1]
  · intro T buf st h1 h2; simp [handleDrain, h1, h2]
  · intro T buf st h1; simp [handleDrain, h1]
  · intro T buf st h1; simp [handleDrain, Nat.not_lt.mpr h1]

/-- Witness for c7_backpressure_hysteresis with threshold 1000: pause at
1001 buffered bytes, no redundant pause at 1500 while paused, no pause
at exactly 1000, resume at 499 while paused, no resume while unpaused,
and no resume at 500 (the band between half the threshold and the
threshold). -/
theorem c7_backpressure_hysteresis_witness :
    checkBackpressure 1000 1001 ⟨false, 0⟩ = (⟨true, 0⟩, true) ∧
    checkBackpressure 1000 1500 ⟨true, 0⟩ = (⟨true, 0⟩, false) ∧
    checkBackpressure 1000 1000 ⟨false, 0⟩ = (⟨false, 0⟩, false) ∧
    handleDrain 1000 499 ⟨true, 0⟩ = (⟨false, 0⟩, true) ∧
    handleDrain 1000 499 ⟨false, 0⟩ = (⟨false, 0⟩, false) ∧
    handleDrain 1000 500 ⟨true, 0⟩ = (⟨true, 0⟩, false) :=
  ⟨c7_backpressure_hysteresis.1 1000 1001 ⟨false, 0⟩ (by decide) rfl,
   c7_backpressure_hysteresis.2.1 1000 1500 ⟨true, 0⟩ rfl,
   c7_backpressure_hysteresis.2.2.1 1000 1000 ⟨false, 0⟩ (by decide),
   c7_backpressure_hysteresis.2.2.2.1 1000 499 ⟨true, 0⟩ rfl (by decide),
   c7_backpressure_hysteresis.2.2.2.2.1 1000 499 ⟨false, 0⟩ rfl,
   c7_backpressure_hysteresis.2.2.2.2.2 1000 500 ⟨true, 0⟩ (by decide)⟩

/-- C8: when the terminal transition disposes of a peer socket, an OPEN
socket is closed with the trigger's code, except that the two reserved
codes 1005 (no status received) and 1006 (abnormal closure) — which a
peer may never legitimately receive — are replaced by 1000 (normal
closure); a socket that is not OPEN is forcibly terminated.  The cleanup
path emits exactly these disposal actions for both sockets. -/
theorem c8_safe_close_code :
    safeCloseCode 1005 = 1000 ∧
    safeCloseCode 1006 = 1000 ∧
    (∀ code, code ≠ 1005 → code ≠ 1006 → safeCloseCode code = code) ∧
    (∀ code, closeSocketAction ReadyState.OPEN code
      = SocketAction.close (safeCloseCode code)) ∧
    (∀ ready code, ready ≠ ReadyState.OPEN →
      closeSocketAction ready code = SocketAction.terminate) ∧
    (∀ code s, s.closed = false →
      (cleanup code s).2
        = [Effect.connectionClosedLog code s.bytesDownstreamToUpstream
             s.bytesUpstreamToDownstream,
           Effect.downstreamSocket (closeSocketAction s.dsState code),
           Effect.upstreamSocket (closeSocketAction s.usState code)]) := by
  refine ⟨rfl, rfl, ?_, ?_, ?_, ?_⟩
  · intro code h1 h2; simp [safeCloseCode, h1, h2]
  · intro code; simp [closeSocketAction]
  · intro ready code h; simp [closeSocketAction, h]
  · intro code s h; simp [cleanup, h]

/-- Witness for c8_safe_close_code: a legitimate code passes through, a
non-OPEN socket is terminated, and cleanup on a fresh connection
(downstream OPEN, upstream CONNECTING) triggered with the reserved code
1006 closes downstream with 1000 and terminates upstream. -/
theorem c8_safe_close_code_witness :
    safeCloseCode 4004 = 4004 ∧
    closeSocketAction ReadyState.CONNECTING 1001 = SocketAction.terminate ∧
    (cleanup 1006 initConnState).2
      = [Effect.connectionClosedLog 1006 0 0,
         Effect.downstreamSocket (SocketAction.close 1000),
         Effect.upstreamSocket SocketAction.terminate] := by
  refine ⟨c8_safe_close_code.2.2.1 4004 (by decide) (by decide),
          c8_safe_close_code.2.2.2.2.1 ReadyState.CONNECTING 1001 (by decide),
          ?_⟩
  have h := c8_safe_close_code.2.2.2.2.2 1006 initConnState rfl
  rw [h]; rfl

/-- C10: the admission checks run in a fixed precedence order.  A
missing or unparseable upstream parameter yields 4002 whatever else the
request carries; with a parseable target, a bad scheme yields 4003; with
a good scheme, a disallowed (or fail-closed empty-allowlist) host yields
4004 regardless of origin and token; with an allowed host, a rejected
origin yields 4000 regardless of the token; only then is the token
checked, yielding 4001. -/
theorem c10_admission_precedence :
    (∀ (cfg : GateConfig) (req : Request), req.upstreamParam = none →
      admitConnection cfg req = GateResult.reject 4002) ∧
    (∀ (cfg : GateConfig) (req : Request),
      req.upstreamParam = some UpstreamParse.fail →
      admitConnection cfg req = GateResult.reject 4002) ∧
    (∀ (cfg : GateConfig) (req : Request) (protocol hostname : String),
      req.upstreamParam = some (UpstreamParse.ok protocol hostname) →
      protocol ≠ "wss:" → protocol ≠ "ws:" →
      admitConnection cfg req = GateResult.reject 4003) ∧
    (∀ (cfg : GateConfig) (req : Request) (protocol hostname : String),
      req.upstreamParam = some (UpstreamParse.ok protocol hostname) →
      (protocol = "wss:" ∨ protocol = "ws:") →
      hostAllowed cfg hostname = false →
      admitConnection cfg req = GateResult.reject 4004) ∧
    (∀ (cfg : GateConfig) (req : Request) (protocol hostname : String),
      req.upstreamParam = some (UpstreamParse.ok protocol hostname) →
      (protocol = "wss:" ∨ protocol = "ws:") →
      hostAllowed cfg hostname = true →
      validateOrigin cfg req.origin = false →
      admitConnection cfg req = GateResult.reject 4000) ∧
    (∀ (cfg : GateConfig) (req : Request) (protocol hostname : String),
      req.upstreamParam = some (UpstreamParse.ok protocol hostname) →
      (protocol = "wss:" ∨ protocol = "ws:") →
      hostAllowed cfg hostname = true →
      validateOrigin cfg req.origin = true →
      validateToken cfg req.token = false →
      admitConnection cfg req = GateResult.reject 4001) := by
  refine ⟨?_, ?_, ?_, ?_, ?_, ?_⟩
  · intro cfg req h; rw [admitConnection, h]
  · intro cfg req h; rw [admitConnection, h]
  · intro cfg req protocol hostname h h1 h2
    rw [admitConnection, h]; simp [h1, h2]
  · intro cfg req protocol hostname h hproto hhost
    rw [hostAllowed, Bool.and_eq_false_iff] at hhost
    rw [admitConnection, h]
    rcases hproto with h1 | h1 <;> subst h1 <;>
      rcases hhost with h2 | h2 <;> simp_all
  · intro cfg req protocol hostname h hproto hhost horig
    rw [hostAllowed, Bool.and_eq_true] at hhost
    rw [admitConnection, h]
    rcases hproto with h1 | h1 <;> subst h1 <;> simp_all
  · intro cfg req protocol hostname h hproto hhost horig htok
    rw [hostAllowed, Bool.and_eq_true] at hhost
    rw [admitConnection, h]
    rcases hproto with h1 | h1 <;> subst h1 <;> simp_all

/-- Witness for c10_admission_precedence: a request with a disallowed
host and a disallowed origin is closed with 4004, not 4000; the same
configuration closes a request with an allowed host and that origin with
4000, not 4001, although its token is also wrong. -/
theorem c10_admission_precedence_witness :
    admitConnection
        ⟨["https://web.telegram.org"], some "secret123", ["*.telegram.org".toList]⟩
        ⟨some (UpstreamParse.ok "wss:" "evil.com"), some "https://evil.com", none⟩
      = GateResult.reject 4004 ∧
    admitConnection
        ⟨["https://web.telegram.org"], some "secret123", ["*.telegram.org".toList]⟩
        ⟨some (UpstreamParse.ok "wss:" "venus.web.telegram.org"),
         some "https://evil.com", none⟩
      = GateResult.reject 4000 :=
  ⟨c10_admission_precedence.2.2.2.1
      ⟨["https://web.telegram.org"], some "secret123", ["*.telegram.org".toList]⟩
      ⟨some (UpstreamParse.ok "wss:" "evil.com"), some "https://evil.com", none⟩
      "wss:" "evil.com" rfl (Or.inl rfl) (by decide),
   c10_admission_precedence.2.2.2.2.1
      ⟨["https://web.telegram.org"], some "secret123", ["*.telegram.org".toList]⟩
      ⟨some (UpstreamParse.ok "wss:" "venus.web.telegram.org"),
       some "https://evil.com", none⟩
      "wss:" "venus.web.telegram.org" rfl (Or.inl rfl) (by decide) (by decide)⟩

theorem cleanup_of_closed (code : Nat) (s : ConnState) (h : s.closed = true) :
    cleanup code s = (s, []) := by
  simp [cleanup, h]

theorem cleanup_count (code : Nat) (s : ConnState) :
    (cleanup code s).2.countP isConnectionClosedLog = if s.closed then 0 else 1 := by
  cases hc : s.closed <;> simp [cleanup, hc, isConnectionClosedLog]

theorem cleanup_fst_closed (code : Nat) (s : ConnState) :
    (cleanup code s).1.closed = (true : Bool) := by
  cases hc : s.closed <;> simp [cleanup, hc]

theorem step_closed_mono (m : Nat) (s : ConnState) (e : Event)
    (h : s.closed = true) : (step m s e).1.closed = true := by
  cases e <;> simp only [step] <;> (repeat' split) <;>
    simp_all [cleanup, resetDownstreamIdleTimer, resetIdleTimer]

theorem step_count (m : Nat) (s : ConnState) (e : Event) :
    (step m s e).2.countP isConnectionClosedLog
      = if s.closed then 0 else if (step m s e).1.closed then 1 else 0 := by
  cases e <;> cases hc : s.closed <;> simp only [step] <;> (repeat' split) <;>
    simp_all [cleanup, isConnectionClosedLog, resetDownstreamIdleTimer,
      resetIdleTimer, List.countP_cons, List.countP_nil, List.countP_eq_zero,
      List.mem_map]

theorem runFrom_cons (m : Nat) (s : ConnState) (out : List Effect)
    (e : Event) (es : List Event) :
    runFrom m (s, out) (e :: es)
      = runFrom m ((step m s e).1, out ++ (step m s e).2) es := rfl

theorem runFrom_count (m : Nat) (es : List Event) : ∀ (s : ConnState) (out : List Effect),
    out.countP isConnectionClosedLog = (if s.closed then 1 else 0) →
    (runFrom m (s, out) es).2.countP isConnectionClosedLog
      = if (runFrom m (s, out) es).1.closed then 1 else 0 := by
  induction es with
  | nil => intro s out h; simpa [runFrom] using h
  | cons e es ih =>
    intro s out h
    rw [runFrom_cons]
    apply ih
    rw [List.countP_append, h, step_count]
    cases hc : s.closed
    · simp [hc]
    · simp [hc, step_closed_mono m s e hc]

theorem run_count (m : Nat) (es : List Event) :
    (run m es).2.countP isConnectionClosedLog
      = if (run m es).1.closed then 1 else 0 :=
  runFrom_count m es initConnState [] (by rfl)

def ClosedInv (s : ConnState) : Prop :=
  s.closed = true →
    (s.usState ≠ ReadyState.OPEN ∧ s.usState ≠ ReadyState.CONNECTING ∧
     s.dsState ≠ ReadyState.OPEN)

theorem applySocketAction_ne (r : ReadyState) (a : SocketAction) :
    applySocketAction r a ≠ ReadyState.OPEN ∧
    applySocketAction r a ≠ ReadyState.CONNECTING := by
  cases a <;> simp only [applySocketAction] <;> (repeat' split) <;> simp

theorem step_closedInv (m : Nat) (s : ConnState) (e : Event)
    (h : ClosedInv s) : ClosedInv (step m s e).1 := by
  unfold ClosedInv at h ⊢
  cases e <;> simp only [step, cleanup] <;> (repeat' split) <;>
    intro hcl <;>
    (try exact h hcl) <;>
    (try exact ⟨(applySocketAction_ne _ _).1, (applySocketAction_ne _ _).2,
      (applySocketAction_ne _ _).1⟩) <;>
    simp_all [resetDownstreamIdleTimer, resetIdleTimer, applySocketAction_ne]

theorem runFrom_closedInv (m : Nat) (es : List Event) :
    ∀ (s : ConnState) (out : List Effect), ClosedInv s →
      ClosedInv (runFrom m (s, out) es).1 := by
  induction es with
  | nil => intro s out h; exact h
  | cons e es ih =>
    intro s out h
    rw [runFrom_cons]
    exact ih _ _ (step_closedInv m s e h)

theorem run_closedInv (m : Nat) (es : List Event) : ClosedInv (run m es).1 :=
  runFrom_closedInv m es initConnState [] (by intro h; simp [initConnState] at h)

theorem step_after_closed (m : Nat) (s : ConnState) (e : Event)
    (hcl : s.closed = true)
    (hus1 : s.usState ≠ ReadyState.OPEN) (hus2 : s.usState ≠ ReadyState.CONNECTING)
    (hds : s.dsState ≠ ReadyState.OPEN) :
    (step m s e).1.pendingMessages = s.pendingMessages ∧
    (step m s e).2.countP (fun x => isForwardEffect x || isConnectionClosedLog x) = 0 := by
  cases e <;> simp only [step] <;> (repeat' split) <;>
    simp_all [cleanup, isForwardEffect, isConnectionClosedLog,
      resetDownstreamIdleTimer, resetIdleTimer, List.countP_cons, List.countP_nil]

theorem step_pending_unchanged (m : Nat) (s : ConnState) (e : Event)
    (h : s.usState ≠ ReadyState.CONNECTING) :
    (step m s e).1.pendingMessages = s.pendingMessages := by
  cases e <;> simp only [step, cleanup] <;> (repeat' split) <;>
    simp_all [resetDownstreamIdleTimer, resetIdleTimer]

theorem step_connecting_final (m : Nat) (s : ConnState) (e : Event)
    (h : s.usState ≠ ReadyState.CONNECTING) :
    (step m s e).1.usState ≠ ReadyState.CONNECTING := by
  cases e <;> simp only [step, cleanup] <;> (repeat' split) <;>
    simp_all [resetDownstreamIdleTimer, resetIdleTimer, applySocketAction_ne]

theorem step_pending_change (m : Nat) (s : ConnState) (e : Event) :
    (step m s e).1.pendingMessages = s.pendingMessages ∨
    (s.usState = ReadyState.CONNECTING ∧ s.dsCloseEmitted = false ∧
      ∃ d buf, e = Event.dsMessage d true buf ∧
        (step m s e).1.pendingMessages = s.pendingMessages ++ [d]) ∨
    (s.usState = ReadyState.CONNECTING ∧ e = Event.usOpen ∧
      (step m s e).1.pendingMessages = []) := by
  cases e
  case dsMessage d isBinary buf =>
    by_cases h1 : s.dsCloseEmitted = true
    · left; simp [step, h1]
    · rw [Bool.not_eq_true] at h1
      cases hb : isBinary
      · left; simp [step, h1]
      · by_cases h2 : s.usState = ReadyState.OPEN
        · left; simp [step, h1, h2, resetDownstreamIdleTimer]
        · by_cases h3 : s.usState = ReadyState.CONNECTING
          · right; left
            exact ⟨h3, h1, d, buf, rfl,
              by simp [step, h1, h2, h3, resetDownstreamIdleTimer]⟩
          · left; simp [step, h1, h2, h3, resetDownstreamIdleTimer]
  case usOpen =>
    by_cases h : s.usState = ReadyState.CONNECTING
    · right; right
      exact ⟨h, rfl, by simp [step, h, resetIdleTimer]⟩
    · left; simp [step, h]
  all_goals
    left
  all_goals
    simp only [step, cleanup]
  all_goals
    (repeat' split) <;> simp_all [resetDownstreamIdleTimer, resetIdleTimer]

/-- C1: the terminal cleanup action is idempotent.  Over every possible
sequence of delivered events, in whatever order the triggers fire, the
terminal stats log is emitted exactly once when the connection reaches
the closed state and zero times otherwise; invoking cleanup on an
already-closed connection changes nothing and emits nothing; a first
invocation performs the full side-effect set — sets the one-shot guard,
cancels the engine timers and disposes of both sockets — in one body
that can run at most once. -/
theorem c1_cleanup_idempotent :
    (∀ m es, (run m es).2.countP isConnectionClosedLog
      = if (run m es).1.closed then 1 else 0) ∧
    (∀ code s, s.closed = true → cleanup code s = (s, [])) ∧
    (∀ code s, s.closed = false →
      (cleanup code s).1.closed = true ∧
      (cleanup code s).1.downstreamIdleTimer = none ∧
      (cleanup code s).1.pingTimer = none ∧
      (cleanup code s).2
        = [Effect.connectionClosedLog code s.bytesDownstreamToUpstream
             s.bytesUpstreamToDownstream,
           Effect.downstreamSocket (closeSocketAction s.dsState code),
           Effect.upstreamSocket (closeSocketAction s.usState code)]) := by
  refine ⟨run_count, cleanup_of_closed, ?_⟩
  intro code s h
  simp [cleanup, h]

/-- Witness for c1_cleanup_idempotent: a trace with four triggering
events emits one stats log; cleanup on a closed state is the identity. -/
theorem c1_cleanup_idempotent_witness :
    (run 5000000 [Event.usError, Event.dsClose 1001, Event.usClose 1006,
        Event.dsIdleTimeout]).2.countP isConnectionClosedLog = 1 ∧
    cleanup 1000 (cleanup 1011 initConnState).1
      = ((cleanup 1011 initConnState).1, []) ∧
    (cleanup 1006 initConnState).1.closed = true :=
  ⟨(c1_cleanup_idempotent.1 5000000 _).trans (by decide),
   c1_cleanup_idempotent.2.1 1000 (cleanup 1011 initConnState).1 (by decide),
   (c1_cleanup_idempotent.2.2 1006 initConnState rfl).1⟩

/-- C2: pending-message buffering.  A downstream binary frame delivered
while upstream is CONNECTING is appended to pendingMessages and nothing
is emitted (never dropped); outside the connecting phase the queue is
never touched, and the only changes ever made to it are that append and
the flush; the upstream open event emits the queued frames to upstream
in arrival order and clears the queue, and since CONNECTING is never
re-entered this happens at most once; with upstream OPEN a downstream
binary frame is forwarded immediately, without touching the queue; with
upstream CLOSING or CLOSED it is dropped with a warn log and never
queued. -/
theorem c2_pending_messages :
    (∀ m (s : ConnState) d buf, s.dsCloseEmitted = false →
      s.usState = ReadyState.CONNECTING →
      (step m s (Event.dsMessage d true buf)).1.pendingMessages
          = s.pendingMessages ++ [d] ∧
      (step m s (Event.dsMessage d true buf)).2 = []) ∧
    (∀ m (s : ConnState) e, s.usState ≠ ReadyState.CONNECTING →
      (step m s e).1.pendingMessages = s.pendingMessages) ∧
    (∀ m (s : ConnState), s.usState = ReadyState.CONNECTING →
      (step m s Event.usOpen).2 = s.pendingMessages.map Effect.sendUpstream ∧
      (step m s Event.usOpen).1.pendingMessages = []) ∧
    (∀ m (s : ConnState) e, s.usState ≠ ReadyState.CONNECTING →
      (step m s e).1.usState ≠ ReadyState.CONNECTING) ∧
    (∀ m (s : ConnState) d buf, s.dsCloseEmitted = false →
      s.usState = ReadyState.OPEN →
      (step m s (Event.dsMessage d true buf)).2
          = Effect.sendUpstream d ::
              (if (checkBackpressure m buf s.upstreamBackpressure).2 then
                [Effect.pauseDownstream] else []) ∧
      (step m s (Event.dsMessage d true buf)).1.pendingMessages
          = s.pendingMessages) ∧
    (∀ m (s : ConnState) d buf, s.dsCloseEmitted = false →
      (s.usState = ReadyState.CLOSING ∨ s.usState = ReadyState.CLOSED) →
      (step m s (Event.dsMessage d true buf)).2 = [Effect.dropDownstreamLog] ∧
      (step m s (Event.dsMessage d true buf)).1.pendingMessages
          = s.pendingMessages) ∧
    (∀ m (s : ConnState) e,
      (step m s e).1.pendingMessages = s.pendingMessages ∨
      (s.usState = ReadyState.CONNECTING ∧ s.dsCloseEmitted = false ∧
        ∃ d buf, e = Event.dsMessage d true buf ∧
          (step m s e).1.pendingMessages = s.pendingMessages ++ [d]) ∨
      (s.usState = ReadyState.CONNECTING ∧ e = Event.usOpen ∧
        (step m s e).1.pendingMessages = [])) := by
  refine ⟨?_, step_pending_unchanged, ?_, step_connecting_final, ?_, ?_,
    step_pending_change⟩
  · intro m s d buf h1 h2
    simp [step, h1, h2, resetDownstreamIdleTimer]
  · intro m s h
    simp [step, h, resetIdleTimer]
  · intro m s d buf h1 h2
    simp [step, h1, h2, resetDownstreamIdleTimer]
  · intro m s d buf h1 h2
    rcases h2 with h2 | h2 <;> simp [step, h1, h2, resetDownstreamIdleTimer]

/-- Witness for c2_pending_messages: a frame buffered on a fresh
connection, the in-order flush of two buffered frames on upstream open,
and a drop after upstream failure. -/
theorem c2_pending_messages_witness :
    (step 1000 initConnState (Event.dsMessage [3, 4] true 0)).1.pendingMessages
        = initConnState.pendingMessages ++ [[3, 4]] ∧
    (step 1000 (run 1000 [Event.dsMessage [1] true 0,
        Event.dsMessage [2, 2] true 0]).1 Event.usOpen).2
      = [Effect.sendUpstream [1], Effect.sendUpstream [2, 2]] ∧
    (step 1000 (run 1000 [Event.usError]).1
        (Event.dsMessage [9] true 0)).2 = [Effect.dropDownstreamLog] :=
  ⟨(c2_pending_messages.1 1000 initConnState [3, 4] 0 rfl rfl).1,
   ((c2_pending_messages.2.2.1 1000 _ (by decide)).1).trans (by decide),
   (c2_pending_messages.2.2.2.2.2.1 1000 _ [9] 0 (by decide)
      (Or.inl (by decide))).1⟩

/-- C3 counterexample: on the downstream leg the claim fails.  A
non-binary downstream frame on a fresh connection leaves the state —
including the downstream idle timer handle — completely unchanged (the
handler returns before the reset), whereas genuinely liveness-counting
events (a binary frame, a ping) re-arm the timer with a fresh handle.
So a non-binary downstream frame does not reset that leg's idle
timer. -/
theorem c3_non_binary_counterexample :
    (step 1000 initConnState (Event.dsMessage [5] false 0)).1 = initConnState ∧
    (step 1000 initConnState (Event.dsMessage [5] false 0)).2
      = [Effect.nonBinaryDownstreamLog] ∧
    initConnState.downstreamIdleTimer = some 0 ∧
    (step 1000 initConnState (Event.dsMessage [5] true 0)).1.downstreamIdleTimer
      = some 2 ∧
    (step 1000 initConnState Event.dsPing).1.downstreamIdleTimer = some 2 := by
  decide

/-- C3 amended: a non-binary frame on either leg is dropped (not
forwarded) and logged.  On the upstream leg the connector's handler runs
regardless of frame type and resets the upstream idle timer, so there
the frame counts as liveness; on the downstream leg the handler returns
before the idle-timer reset, so the downstream idle timer is not
touched.  The last two conjuncts exhibit what a reset does: it arms the
slot with the fresh handle id. -/
theorem c3_non_binary_amended :
    (∀ m (s : ConnState) d buf, s.dsCloseEmitted = false →
      step m s (Event.dsMessage d false buf) = (s, [Effect.nonBinaryDownstreamLog])) ∧
    (∀ m (s : ConnState) d buf, s.usOpened = true → s.usCloseEmitted = false →
      step m s (Event.usMessage d false buf)
        = (resetIdleTimer s, [Effect.nonBinaryUpstreamLog])) ∧
    (∀ s : ConnState, (resetIdleTimer s).upstreamIdleTimer = some s.nextTimerId) ∧
    (∀ s : ConnState,
      (resetDownstreamIdleTimer s).downstreamIdleTimer = some s.nextTimerId) := by
  refine ⟨?_, ?_, fun s => rfl, fun s => rfl⟩
  · intro m s d buf h
    simp [step, h]
  · intro m s d buf h1 h2
    simp [step, h1, h2]

/-- Witness for c3_non_binary_amended on a fresh connection and on a
connection whose upstream has opened. -/
theorem c3_non_binary_amended_witness :
    step 1000 initConnState (Event.dsMessage [5] false 0)
      = (initConnState, [Effect.nonBinaryDownstreamLog]) ∧
    step 1000 (run 1000 [Event.usOpen]).1 (Event.usMessage [5] false 0)
      = (resetIdleTimer (run 1000 [Event.usOpen]).1,
         [Effect.nonBinaryUpstreamLog]) :=
  ⟨c3_non_binary_amended.1 1000 initConnState [5] 0 rfl,
   c3_non_binary_amended.2.1 1000 _ [5] 0 (by decide) (by decide)⟩

/-- C4: timer cancellation on the terminal path.  The cleanup body
clears the downstream idle timer and the keepalive ping timer; the
connector clears its upstream idle timer when the upstream close (or
error) event is delivered; composing the two — cleanup followed by the
upstream close event that the socket disposal induces — leaves all three
timer slots empty.  A stray downstream-idle-timeout callback firing on
an already-closed connection is swallowed by the closed guard and
produces no effects. -/
theorem c4_timers_cancelled :
    (∀ code (s : ConnState), s.closed = false →
      (cleanup code s).1.downstreamIdleTimer = none ∧
      (cleanup code s).1.pingTimer = none) ∧
    (∀ m code (s : ConnState), s.usCloseEmitted = false →
      (step m s (Event.usClose code)).1.upstreamIdleTimer = none) ∧
    (∀ m (s : ConnState), s.usCloseEmitted = false →
      (step m s Event.usError).1.upstreamIdleTimer = none) ∧
    (∀ m c c2 (s : ConnState), s.closed = false → s.usCloseEmitted = false →
      (step m (cleanup c s).1 (Event.usClose c2)).1.downstreamIdleTimer = none ∧
      (step m (cleanup c s).1 (Event.usClose c2)).1.pingTimer = none ∧
      (step m (cleanup c s).1 (Event.usClose c2)).1.upstreamIdleTimer = none) ∧
    (∀ m (s : ConnState), s.closed = true →
      (step m s Event.dsIdleTimeout).2 = []) := by
  refine ⟨?_, ?_, ?_, ?_, ?_⟩
  · intro code s h; simp [cleanup, h]
  · intro m code s h
    cases hc : s.closed <;> simp [step, cleanup, h, hc]
  · intro m s h
    cases hc : s.closed <;> simp [step, cleanup, h, hc]
  · intro m c c2 s h1 h2
    have e1 : (cleanup c s).1.usCloseEmitted = false := by simp [cleanup, h1, h2]
    have e2 : (cleanup c s).1.closed = true := cleanup_fst_closed c s
    refine ⟨?_, ?_, ?_⟩ <;> simp [step, cleanup, e1, e2, h1, h2]
  · intro m s h
    cases hd : s.downstreamIdleTimer <;> simp [step, cleanup, hd, h]

/-- Witness for c4_timers_cancelled: concrete terminal sequence, and a
stray idle-timeout fire on a connection closed while its idle timer was
re-armed by a late pong. -/
theorem c4_timers_cancelled_witness :
    (cleanup 1001 initConnState).1.downstreamIdleTimer = none ∧
    (step 64 (cleanup 1001 initConnState).1 (Event.usClose 1006)).1.pingTimer
      = none ∧
    (step 64 (cleanup 1001 initConnState).1
        (Event.usClose 1006)).1.upstreamIdleTimer = none ∧
    (step 1000 (run 1000 [Event.usError, Event.dsPong]).1
        Event.dsIdleTimeout).2 = [] :=
  ⟨(c4_timers_cancelled.1 1001 initConnState rfl).1,
   (c4_timers_cancelled.2.2.2.1 64 1001 1006 initConnState rfl rfl).2.1,
   (c4_timers_cancelled.2.2.2.1 64 1001 1006 initConnState rfl rfl).2.2,
   c4_timers_cancelled.2.2.2.2 1000 _ (by decide)⟩

/-- C5 counterexample: fields are mutated after the closed transition.
An upstream error closes the connection (closed = true, both timers
cleared); a downstream binary frame already in flight is then delivered
— the message handler has no closed guard — and mutates the
bytesDownstreamToUpstream stats counter and re-arms the downstream idle
timer with a fresh handle. -/
theorem c5_field_mutation_counterexample :
    (run 1000 [Event.usError]).1.closed = true ∧
    (run 1000 [Event.usError,
        Event.dsMessage [7] true 0]).1.bytesDownstreamToUpstream
      ≠ (run 1000 [Event.usError]).1.bytesDownstreamToUpstream ∧
    (run 1000 [Event.usError,
        Event.dsMessage [7] true 0]).1.downstreamIdleTimer
      ≠ (run 1000 [Event.usError]).1.downstreamIdleTimer ∧
    (run 1000 [Event.usError]).1.downstreamIdleTimer = none ∧
    (run 1000 [Event.usError,
        Event.dsMessage [7] true 0]).1.downstreamIdleTimer = some 2 := by
  decide

/-- C5 amended: the closed flag starts false and, once true, stays true
for every further event, so it transitions false to true exactly once
(witnessed globally by the stats log emitted exactly at that
transition); after the transition no later event repeats any cleanup
side effect, touches pendingMessages, or forwards a frame in either
direction — but stats counters, downstreamAlive, the downstream idle
timer and the backpressure pause flags can still be mutated by
late-delivered message, pong, ping and drain events (see the
counterexample). -/
theorem c5_closed_one_shot_amended :
    initConnState.closed = false ∧
    (∀ m (s : ConnState) e, s.closed = true → (step m s e).1.closed = true) ∧
    (∀ m es, (run m es).2.countP isConnectionClosedLog
      = if (run m es).1.closed then 1 else 0) ∧
    (∀ m es e, (run m es).1.closed = true →
      (step m (run m es).1 e).1.pendingMessages
          = (run m es).1.pendingMessages ∧
      (step m (run m es).1 e).2.countP
          (fun x => isForwardEffect x || isConnectionClosedLog x) = 0) := by
  refine ⟨rfl, step_closed_mono, run_count, ?_⟩
  intro m es e h
  have hinv := run_closedInv m es h
  exact step_after_closed m (run m es).1 e h hinv.1 hinv.2.1 hinv.2.2

/-- Witness for c5_closed_one_shot_amended at the state reached after an
upstream error. -/
theorem c5_closed_one_shot_amended_witness :
    (step 1000 (run 1000 [Event.usError]).1 Event.pingTick).1.closed = true ∧
    (step 1000 (run 1000 [Event.usError]).1
        (Event.dsMessage [7] true 0)).1.pendingMessages
      = (run 1000 [Event.usError]).1.pendingMessages ∧
    (step 1000 (run 1000 [Event.usError]).1
        (Event.dsMessage [7] true 0)).2.countP
        (fun x => isForwardEffect x || isConnectionClosedLog x) = 0 :=
  ⟨c5_closed_one_shot_amended.2.1 1000 (run 1000 [Event.usError]).1
      Event.pingTick (by decide),
   (c5_closed_one_shot_amended.2.2.2 1000 [Event.usError]
      (Event.dsMessage [7] true 0) (by decide)).1,
   (c5_closed_one_shot_amended.2.2.2 1000 [Event.usError]
      (Event.dsMessage [7] true 0) (by decide)).2⟩
